import Mathlib

/-!
Verification development for the `asterik` telephony orchestrator.

The definitions below are a shallow embedding of the relevant TypeScript
modules:

* `src/store/trunk-store.ts` (TrunkStore): trunk inventory, usage caps,
  assignment / release with TTL timers;
* the origination queue (`QueueManager`): per-trunk admission limit and the
  1.1 s rate-limit drain loop;
* `src/modules/websocket/websocket-service.ts` (WebSocketService):
  per-call push sockets and the pending-message buffer;
* `src/api/controllers/action-controller.ts` (ActionController): menu
  hoisting, answer-timeout jitter and the XML response builder;
* `src/modules/ari/channel-manager.ts` (ChannelManager): the per-channel
  IVR state machine and its event handlers.

JavaScript `Map`s are embedded as total/optional functions from keys,
`setTimeout` handles as `Bool` armed-flags, and the outside world (HTTP
fetches of action scripts, `Math.random`, PBX REST calls) as explicit
environment parameters and emitted effect lists.  Recursion through
`runAction`/`getActions` is fuel-indexed, since a malicious action script
could redirect forever.
-/

namespace Asterik

/-- JavaScript `x || d` for an optional number: both `undefined` and `0`
are falsy, so they fall through to the default. -/
def jsOr (x : Option Nat) (d : Nat) : Nat :=
  match x with
  | some n => if n = 0 then d else n
  | none => d

/-- JavaScript falsiness of an optional string: `undefined` and `""`. -/
def jsFalsyStr (x : Option String) : Bool :=
  match x with
  | some s => s = ""
  | none => true

/-- JavaScript `s.includes(pat)`: `pat` occurs as a contiguous substring. -/
def strContains (s pat : String) : Bool :=
  (List.range (s.toList.length + 1)).any fun i =>
    (s.toList.drop i).take pat.toList.length == pat.toList

/-! ## TrunkStore (`src/store/trunk-store.ts`) -/

/-- One trunk of the inventory (`interface Trunk`). -/
structure Trunk where
  trunk_id : String
  phone_number : String
  is_verified : Option Bool
deriving DecidableEq

/-- A live assignment (`interface TrunkAssignment`); the `setTimeout`
handle is tracked separately in `TrunkStoreState.armedTimers`. -/
structure TrunkAssignment where
  trunk_id : String
  trunk_data : Trunk
deriving DecidableEq

/-- The TrunkStore's in-memory maps.  `trunkUsageCount` embeds the JS map
together with the `get(x) || 0` read convention as a total function;
`armedTimers` records which assignment TTL timers are currently armed. -/
structure TrunkStoreState where
  trunksByUserToken : String → List Trunk
  trunkUsageCount : String → Nat
  assignments : String → Option TrunkAssignment
  armedTimers : String → Bool

/-- User-token normalization: the source's global regex replace deletes
every dash from the token. -/
def normalizeToken (s : String) : String :=
  ⟨s.toList.filter (fun c => c ≠ '-')⟩

/-- `getTrunksForUser`: lookup by normalized token, `[]` when absent. -/
def getTrunksForUser (st : TrunkStoreState) (userToken : String) : List Trunk :=
  st.trunksByUserToken (normalizeToken userToken)

/-- `isCustomOrTelnyxTrunk`: trunk_id begins with `telnyx_` or `custom_`. -/
def isCustomOrTelnyxTrunk (t : Trunk) : Bool :=
  t.trunk_id.startsWith "telnyx_" || t.trunk_id.startsWith "custom_"

/-- `TrunkConfig.MAX_TRUNK_USAGE` (`src/config/trunk-config.ts`). -/
def MAX_TRUNK_USAGE : Nat := 4

/-- `getMaxUsageForTrunk`: `none` embeds the source's `Infinity`
(unlimited), `is_verified === true` caps at 9, other custom/telnyx at 4. -/
def getMaxUsageForTrunk (t : Trunk) : Option Nat :=
  if isCustomOrTelnyxTrunk t then
    if t.is_verified = some true then some 9 else some MAX_TRUNK_USAGE
  else none

/-- The loop body of `findAvailableTrunk`: unlimited trunks are always
available, capped trunks only while usage is strictly below the cap. -/
def trunkAvailable (usage : String → Nat) (t : Trunk) : Bool :=
  match getMaxUsageForTrunk t with
  | none => true
  | some m => usage t.trunk_id < m

/-- `findAvailableTrunk`: first available trunk in iteration order. -/
def findAvailableTrunk (st : TrunkStoreState) (userToken : String) : Option Trunk :=
  (getTrunksForUser st userToken).find? (trunkAvailable st.trunkUsageCount)

/-- Result record of `assignTrunk`. -/
structure AssignResult where
  success : Bool
  trunk : Option Trunk
  assignment_uuid : Option String
  error : Option String
deriving DecidableEq

/-- `assignTrunk`: pick the first available trunk, bump its usage counter,
store the assignment under a fresh uuid (passed in for `crypto.randomUUID`)
and arm its TTL timer. -/
def assignTrunk (st : TrunkStoreState) (userToken : String) (freshId : String) :
    AssignResult × TrunkStoreState :=
  match findAvailableTrunk st userToken with
  | none =>
    ({ success := false, trunk := none, assignment_uuid := none,
       error := some "No hay trunks disponibles para este user_token" }, st)
  | some availableTrunk =>
    let currentUsage := st.trunkUsageCount availableTrunk.trunk_id
    let st1 : TrunkStoreState :=
      { st with
        trunkUsageCount := fun k =>
          if k = availableTrunk.trunk_id then currentUsage + 1 else st.trunkUsageCount k
        assignments := fun k =>
          if k = freshId then
            some { trunk_id := availableTrunk.trunk_id, trunk_data := availableTrunk }
          else st.assignments k
        armedTimers := fun k => if k = freshId then true else st.armedTimers k }
    ({ success := true, trunk := some availableTrunk, assignment_uuid := some freshId,
       error := none }, st1)

/-- Result record of `releaseAssignment` / `releaseAssignmentById`. -/
structure ReleaseResult where
  success : Bool
  message : String
deriving DecidableEq

/-- `releaseAssignment`: unknown ids return the not-found result and leave
the store untouched; known ids cancel the TTL timer, decrement the trunk's
usage counter only while it is positive, and delete the assignment. -/
def releaseAssignment (st : TrunkStoreState) (assignmentUuid : String) :
    ReleaseResult × TrunkStoreState :=
  match st.assignments assignmentUuid with
  | none => ({ success := false, message := "Asignación no encontrada" }, st)
  | some assignment =>
    let currentUsage := st.trunkUsageCount assignment.trunk_id
    let usage1 : String → Nat :=
      if 0 < currentUsage then
        fun k => if k = assignment.trunk_id then currentUsage - 1 else st.trunkUsageCount k
      else st.trunkUsageCount
    ({ success := true, message := "Trunk liberado correctamente" },
     { st with
       trunkUsageCount := usage1
       assignments := fun k => if k = assignmentUuid then none else st.assignments k
       armedTimers := fun k => if k = assignmentUuid then false else st.armedTimers k })

/-- `releaseAssignmentById`, the TTL auto-release callback's body: in the
source it is a verbatim copy of `releaseAssignment`. -/
def releaseAssignmentById (st : TrunkStoreState) (assignmentId : String) :
    ReleaseResult × TrunkStoreState :=
  match st.assignments assignmentId with
  | none => ({ success := false, message := "Asignación no encontrada" }, st)
  | some assignment =>
    let currentUsage := st.trunkUsageCount assignment.trunk_id
    let usage1 : String → Nat :=
      if 0 < currentUsage then
        fun k => if k = assignment.trunk_id then currentUsage - 1 else st.trunkUsageCount k
      else st.trunkUsageCount
    ({ success := true, message := "Trunk liberado correctamente" },
     { st with
       trunkUsageCount := usage1
       assignments := fun k => if k = assignmentId then none else st.assignments k
       armedTimers := fun k => if k = assignmentId then false else st.armedTimers k })

/-! ## OriginationQueue (`QueueManager`) -/

/-- `PROCESS_DELAY = 1100` ms: 1.1 s between calls on one trunk. -/
def PROCESS_DELAY : Nat := 1100

/-- `QUEUE_LIMIT = 50` pending jobs per trunk. -/
def QUEUE_LIMIT : Nat := 50

/-- The QueueManager's maps; jobs are opaque (`α`). -/
structure QueueManagerState (α : Type) where
  queues : String → Option (List α)
  processing : List String
  lastCallTime : String → Option Nat

/-- `enqueue`: create the trunk's queue when absent, fail with the
queue-full error when it already holds `QUEUE_LIMIT` jobs (before pushing
anything), otherwise append the new job. -/
def enqueue {α : Type} (st : QueueManagerState α) (trunkId : String) (job : α) :
    Except String (QueueManagerState α) :=
  let st0 : QueueManagerState α :=
    if (st.queues trunkId).isSome then st
    else { st with queues := fun k => if k = trunkId then some [] else st.queues k }
  let queue := (st0.queues trunkId).getD []
  if QUEUE_LIMIT ≤ queue.length then
    Except.error ("Cola llena para el trunk " ++ trunkId ++ " (máximo 50)")
  else
    Except.ok { st0 with
      queues := fun k => if k = trunkId then some (queue ++ [job]) else st0.queues k }

/-- One iteration of `processQueue`'s drain loop, as observed on the
wall clock (milliseconds): `gap` is the time elapsed between the previous
`lastCallTime` and this iteration's `Date.now()` read, `busyWait` any
further scheduler delay between the end of the rate-limit sleep and the
job actually starting, `dur` the job's run time, and `failed` whether the
job threw (the catch branch updates `lastCallTime` exactly like success). -/
structure DrainStep where
  gap : Nat
  busyWait : Nat
  dur : Nat
  failed : Bool
deriving DecidableEq

/-- The moment one drain iteration starts its job: the loop reads
`now = last + gap`, sleeps `PROCESS_DELAY - (now - last)` when that is
positive, and the job begins after any further scheduler delay. -/
def drainStart (last : Nat) (s : DrainStep) : Nat :=
  let now := last + s.gap
  let afterSleep :=
    if now - last < PROCESS_DELAY then now + (PROCESS_DELAY - (now - last)) else now
  afterSleep + s.busyWait

/-- The (start, completion) times produced by `processQueue` for one
trunk: each iteration rate-limits against `lastCallTime`, runs the head
job, and records its completion time as the new `lastCallTime` whether
the job succeeded or failed. -/
def drainSchedule (last : Nat) : List DrainStep → List (Nat × Nat)
  | [] => []
  | s :: rest =>
    let start := drainStart last s
    let finish := start + s.dur
    (start, finish) :: drainSchedule finish rest

/-! ## WebSocketService (`src/modules/websocket/websocket-service.ts`) -/

/-- A registered push socket: `isOpen` embeds
`readyState === WebSocket.OPEN`, `sendFails` whether `ws.send` throws. -/
structure Socket where
  isOpen : Bool
  sendFails : Bool
deriving DecidableEq

/-- The service's per-call maps; payloads are opaque (`μ`). -/
structure WebSocketState (μ : Type) where
  connections : String → Option Socket
  pendingMessages : String → Option μ

/-- Whether an open socket is registered for `callId`. -/
def openSocketExists {μ : Type} (st : WebSocketState μ) (callId : String) : Bool :=
  match st.connections callId with
  | some ws => ws.isOpen
  | none => false

/-- `sendToCallId`: with an open socket, try to send — a throwing `send`
returns `false` and nothing is buffered; with no open socket, store the
payload in `pendingMessages` (overwriting any pending one) and return
`false`.  The third component lists the payloads actually written to the
wire. -/
def sendToCallId {μ : Type} (st : WebSocketState μ) (callId : String) (message : μ) :
    Bool × WebSocketState μ × List μ :=
  match st.connections callId with
  | some ws =>
    if ws.isOpen then
      if ws.sendFails then (false, st, [])
      else (true, st, [message])
    else
      (false,
       { st with pendingMessages := fun k =>
           if k = callId then some message else st.pendingMessages k }, [])
  | none =>
    (false,
     { st with pendingMessages := fun k =>
         if k = callId then some message else st.pendingMessages k }, [])

/-! ## CallStore (`src/store/call-store.ts`) -/

/-- Per-call metadata (`interface CallData`); `created_at` and the sweeper
are outside the claims under proof and are omitted. -/
structure CallData where
  uuid : String
  state : String
  campaign : String
  selectedOption : Option String
  gatherStage : Option String
deriving DecidableEq

/-- The store's map `call_id → CallData`. -/
def CallStoreState : Type := String → Option CallData

/-- A partial update as passed to `updateCall` (object spread merge). -/
structure CallDataPatch where
  state : Option String := none
  selectedOption : Option String := none
  gatherStage : Option String := none
deriving DecidableEq

/-- `updateCall`: merge the patch over the existing record; a missing
record is a no-op. -/
def updateCall (cs : CallStoreState) (uuid : String) (p : CallDataPatch) : CallStoreState :=
  match cs uuid with
  | none => cs
  | some c =>
    let c1 : CallData :=
      { c with
        state := p.state.getD c.state
        selectedOption := p.selectedOption.or c.selectedOption
        gatherStage := p.gatherStage.or c.gatherStage }
    fun k => if k = uuid then some c1 else cs k

/-! ## ActionController (`src/api/controllers/action-controller.ts`) -/

/-- One campaign-catalog entry (`interface ActionData` of
`campaign-service.ts`); the unused `method` field is omitted. -/
structure ActionData where
  audio : String
  next : Option String
  dgts : Option Nat
  finishOnKey : Option String
  timeout : Nat
deriving DecidableEq

/-- The campaign catalog as the controller sees it:
`getActionData (campaign, step)`, `none` for unknown campaign or step. -/
structure CatalogEnv where
  getActionData : String → String → Option ActionData

/-- `isTwoGatherCampaign`: a campaign is two-gather iff its catalog entry
has a `gather1` step. -/
def isTwoGatherCampaign (env : CatalogEnv) (campaignName : String) : Bool :=
  (env.getActionData campaignName "gather1").isSome

/-- A message pushed to the call's websocket by the controller. -/
inductive PushMsg where
  | sendOtp (digits : String)
  | otpCode (digits : String)
  | otpCodeWithOption (digits : String) (selectedOption : Option String)
deriving DecidableEq

/-- `getRandomizedTimeout`: only the `answer` status is jittered.  The
source draws `Math.floor(Math.random() * (15 - 10 + 1)) + 10`; the draw
`floor(random * 6)` is the `r : Fin 6` parameter. -/
def getRandomizedTimeout (status : String) (originalTimeout : Nat) (r : Fin 6) : Nat :=
  if status = "answer" then 10 + r.val else originalTimeout

/-- `buildAudioPath`: `custom/<campaign>/<status>`. -/
def buildAudioPath (campaign status : String) : String :=
  "custom/" ++ campaign ++ "/" ++ status

/-- `buildNextUrl`: the fallback next-step table. -/
def buildNextUrl (baseUrl : String) (currentStatus : String) : String :=
  let nextStep :=
    if currentStatus = "answer" then "gather"
    else if currentStatus = "gather" then "confirm"
    else if currentStatus = "invalid" then "gather"
    else "completed"
  baseUrl ++ "/action/" ++ nextStep

/-- One element of the generated XML response, structurally: the source
emits `<Play timeout=..>`, `<Play>`, `<Gather ...>` and `<Redirect>`
elements by string templating; attributes are carried here as fields. -/
inductive XmlNode where
  | playT (timeout : Nat) (media : String)
  | play (media : String)
  | gather (actionUrl : String) (timeout : Nat) (numDigits : Nat) (finishOnKey : Option String)
  | redirect (url : String)
deriving DecidableEq

/-- `generateXMLResponse`: `confirm` keeps its original timeout on a bare
`Play`; `completed*` is a bare `Play`; everything else is `Play` +
`Gather` with the (possibly jittered) timeout, the resolved next URL and
the dynamic-length (`finishOnKey`, `numDigits=0`) or fixed-length
(`numDigits=dgts`) gather mode. -/
def generateXMLResponse (baseUrl : String) (status : String) (actionData : ActionData)
    (uuid campaign : String) (r : Fin 6) : List XmlNode :=
  let audioPath := buildAudioPath campaign status
  if status = "confirm" then
    [XmlNode.playT actionData.timeout audioPath]
  else
    let finalTimeout := getRandomizedTimeout status actionData.timeout r
    if status = "completed" ∨ status = "completed_option1" ∨ status = "completed_option2" then
      [XmlNode.play audioPath]
    else
      let nextUrl :=
        if status = "gather1" then baseUrl ++ "/action/gather1"
        else if status = "invalid" then
          match actionData.next with
          | some n =>
            if n.startsWith "http://" || n.startsWith "https://" then n
            else baseUrl ++ "/action/" ++ n
          | none => buildNextUrl baseUrl status
        else
          match actionData.next with
          | some n =>
            if n.startsWith "http://" || n.startsWith "https://" then n
            else baseUrl ++ "/action/" ++ n
          | none => buildNextUrl baseUrl status
      let useDynamicMode : Bool :=
        match actionData.finishOnKey with
        | some k => k.length == 1
        | none => false
      let numDigits := if useDynamicMode then 0 else actionData.dgts.getD 0
      let finishKeyAttr := if useDynamicMode then actionData.finishOnKey else none
      [XmlNode.play audioPath,
       XmlNode.gather (nextUrl ++ "?uuid=" ++ uuid) finalTimeout numDigits finishKeyAttr]

/-- `processActionLogic`: the per-status side effects on the CallStore and
the websocket pushes. -/
def processActionLogic (env : CatalogEnv) (cs : CallStoreState)
    (status uuid : String) (digits : Option String) :
    CallStoreState × List PushMsg :=
  let callData := cs uuid
  if status = "gather" then
    if jsFalsyStr digits then (cs, [])
    else
      let campaign := callData.map CallData.campaign
      let cs1 :=
        match campaign with
        | some c =>
          if isTwoGatherCampaign env c then
            updateCall cs uuid { gatherStage := some "first" }
          else cs
        | none => cs
      (cs1, [PushMsg.sendOtp (digits.getD "")])
  else if status = "gather1" then
    if jsFalsyStr digits then (cs, [])
    else
      let campaign := callData.map CallData.campaign
      let cs1 :=
        match campaign with
        | some c =>
          if isTwoGatherCampaign env c then
            updateCall cs uuid { gatherStage := some "second", state := some "gather1" }
          else cs
        | none => cs
      (cs1, [PushMsg.otpCode (digits.getD "")])
  else if status = "option1" ∨ status = "option2" then
    if jsFalsyStr digits then (cs, [])
    else (cs, [PushMsg.sendOtp (digits.getD "")])
  else if status = "confirm" then
    let campaign := callData.map CallData.campaign
    let gatherStage := callData.bind CallData.gatherStage
    let isTwoGather :=
      match campaign with
      | some c => isTwoGatherCampaign env c
      | none => false
    if isTwoGather && (gatherStage == some "second") then
      (updateCall cs uuid { state := some "completed" }, [])
    else if jsFalsyStr digits then (cs, [])
    else
      let selectedOption := callData.bind CallData.selectedOption
      let cs1 :=
        if isTwoGather && (gatherStage == none || gatherStage == some "first") then
          updateCall cs uuid { gatherStage := some "first" }
        else cs
      (cs1, [PushMsg.otpCodeWithOption (digits.getD "") selectedOption])
  else (cs, [])

/-- The XML part of a `handleAction` outcome. -/
inductive XmlOut where
  | errorPlay
  | redirectTo (url : String)
  | response (nodes : List XmlNode)
deriving DecidableEq

/-- Everything observable about one `handleAction` request: the XML sent
back, the resulting CallStore, the websocket pushes, and the final value
of the controller's mutable `status` variable. -/
structure HandleOutcome where
  xml : XmlOut
  store : CallStoreState
  pushes : List PushMsg
  statusUsed : String

/-- `handleAction` (`GET /action/:status?uuid=..&Digits=..`): missing uuid
or unknown call → error XML; on `options` with digits, hoist
`selected_option` and override `status` to `option1`/`option2`; look up the
catalog entry (miss → error XML), run the side effects, short-circuit
`gather1`-with-digits into a `<Redirect>` to its configured next step, and
otherwise emit the generated XML. -/
def handleAction (env : CatalogEnv) (baseUrl : String) (r : Fin 6) (cs : CallStoreState)
    (status : String) (uuid : Option String) (digits : Option String) : HandleOutcome :=
  if jsFalsyStr uuid then
    { xml := XmlOut.errorPlay, store := cs, pushes := [], statusUsed := status }
  else
    let u := uuid.getD ""
    match cs u with
    | none => { xml := XmlOut.errorPlay, store := cs, pushes := [], statusUsed := status }
    | some callData =>
      let campaign := callData.campaign
      let status1 : String :=
        if status = "options" ∧ ¬jsFalsyStr digits then
          if digits.getD "" = "1" then "option1" else "option2"
        else status
      let cs1 : CallStoreState :=
        if status = "options" ∧ ¬jsFalsyStr digits then
          if digits.getD "" = "1" then updateCall cs u { selectedOption := some "1" }
          else updateCall cs u { selectedOption := some "2" }
        else cs
      match env.getActionData campaign status1 with
      | none => { xml := XmlOut.errorPlay, store := cs1, pushes := [], statusUsed := status1 }
      | some actionData =>
        let processed := processActionLogic env cs1 status1 u digits
        let cs2 := processed.1
        let pushes := processed.2
        if status1 = "gather1" ∧ ¬jsFalsyStr digits then
          match (env.getActionData campaign "gather1").bind ActionData.next with
          | some n =>
            let redirectUrl :=
              if n.startsWith "http" then n else baseUrl ++ "/action/" ++ n
            { xml := XmlOut.redirectTo (redirectUrl ++ "?uuid=" ++ u),
              store := cs2, pushes := pushes, statusUsed := status1 }
          | none =>
            { xml := XmlOut.response (generateXMLResponse baseUrl status1 actionData u campaign r),
              store := cs2, pushes := pushes, statusUsed := status1 }
        else
          { xml := XmlOut.response (generateXMLResponse baseUrl status1 actionData u campaign r),
            store := cs2, pushes := pushes, statusUsed := status1 }

/-! ## ChannelManager (`src/modules/ari/channel-manager.ts`)

The per-channel IVR state machine.  PBX REST calls and action-script
fetches are recorded as `Effect`s; the action-script server's replies and
the fresh playback-id generator are the `ChanEnv` environment.  `setTimeout`
handles are armed-flags: a timer can only fire while its flag is set. -/

/-- Attributes of one parsed XML action (`interface ActionAttributes`). -/
structure ChanAttributes where
  timeout : Option Nat := none
  numDigits : Option Nat := none
  finishOnKey : Option String := none
  action : Option String := none
deriving DecidableEq

/-- One parsed action (`interface Action`): `name` is the lowercased XML
element name. -/
structure ChanAction where
  name : String
  data : Option String := none
  attributes : ChanAttributes := {}
deriving DecidableEq

/-- The query parameters handed to `fetchActionXML`: empty, a `Digits`
value (gather completion), or a redirect's forwarded attributes. -/
inductive Params where
  | empty
  | digits (d : String)
  | attrs (a : ChanAttributes)
deriving DecidableEq

/-- An outbound call issued by the session: PBX REST requests and HTTP
action-script fetches. -/
inductive Effect where
  | play (channelId media playbackId : String)
  | stopPlayback (playbackId : String)
  | hangup (channelId : String)
  | fetch (url : String) (params : Params)
deriving DecidableEq

/-- `gatherInstance`: the in-progress DTMF collection.  `timeout` is the
armed-flag of the gather timer. -/
structure GatherInstance where
  digits : String
  running : Bool
  numDigits : Nat
  finishOnKey : Option String
  action : Option String
  timeout : Bool
  timeoutSeconds : Nat
deriving DecidableEq

/-- The mutable fields of a `ChannelManager`.  `timeoutHandle` is the
armed-flag of the post-playback timer; `seq` counts playback-id draws
(the source builds ids from `Date.now()` and `Math.random()`). -/
structure ChannelState where
  id : String
  remainingActions : List ChanAction
  gatherInstance : GatherInstance
  playbackId : String
  isPlaying : Bool
  currentTimeout : Nat
  timeoutHandle : Bool
  pendingAction : Option (String × Params)
  currentActionStatus : String
  isDestroyed : Bool
  seq : Nat
deriving DecidableEq

/-- What one `fetchActionXML` + XML-parse round trip produced: a thrown
error, a reply without a `Response` element, or the parsed action list. -/
inductive FetchOutcome where
  | err
  | noResponse
  | ok (actions : List ChanAction)

/-- The session's environment: the action-script server and the
playback-id generator. -/
structure ChanEnv where
  fetchResult : String → Params → FetchOutcome
  freshPlaybackId : Nat → String

/-- `destroy`: latched on `isDestroyed`; a second call returns at once
with no effect.  The first call disarms both timers, clears the playing
state and issues the best-effort PBX hangup (a 404 reply is swallowed). -/
def destroyImpl (st : ChannelState) : ChannelState × List Effect :=
  if st.isDestroyed then (st, [])
  else
    ({ st with
       isDestroyed := true
       timeoutHandle := false
       gatherInstance := { st.gatherInstance with timeout := false }
       isPlaying := false
       playbackId := "" }, [Effect.hangup st.id])

/-- `addUuidToUrl`: append `uuid=<channel_id>` with `?` or `&`. -/
def addUuidToUrl (id url : String) : String :=
  if strContains url "?" then url ++ "&uuid=" ++ id else url ++ "?uuid=" ++ id

/-- The `currentActionStatus` snooping in `getActions`. -/
def snoopStatus (finalUrl cur : String) : String :=
  if strContains finalUrl "/completed" then "completed"
  else if strContains finalUrl "/invalid" then "invalid"
  else if strContains finalUrl "/gather" then "gather"
  else if strContains finalUrl "/answer" then "answer"
  else cur

/-- `getActions`: add the uuid when missing, snoop the status, fetch and
parse.  A throwing fetch or parse destroys the session (the source's
catch) and — like a reply without `Response` — leaves `remainingActions`
as they were. -/
def getActionsImpl (env : ChanEnv) (st : ChannelState) (actionUrl : String)
    (params : Params) : ChannelState × List Effect :=
  let finalUrl := if strContains actionUrl "uuid=" then actionUrl else addUuidToUrl st.id actionUrl
  let st1 := { st with currentActionStatus := snoopStatus finalUrl st.currentActionStatus }
  match env.fetchResult finalUrl params with
  | FetchOutcome.ok actions =>
    ({ st1 with remainingActions := actions }, [Effect.fetch finalUrl params])
  | FetchOutcome.noResponse => (st1, [Effect.fetch finalUrl params])
  | FetchOutcome.err =>
    let d := destroyImpl st1
    (d.1, Effect.fetch finalUrl params :: d.2)

/-- `play`: draw a fresh playback id, issue the PBX play, mark playing and
arm the post-playback timer when the action carried a positive timeout.
The PBX call is taken to succeed here; its failure path in the source only
logs and advances to the next action. -/
def playImpl (env : ChanEnv) (st : ChannelState) (audioUrl : String) :
    ChannelState × List Effect :=
  let pb := env.freshPlaybackId st.seq
  let st1 := { st with seq := st.seq + 1, playbackId := pb, isPlaying := true }
  let st2 := if 0 < st1.currentTimeout then { st1 with timeoutHandle := true } else st1
  (st2, [Effect.play st.id audioUrl pb])

/-- `gather`: load the gather parameters; while audio is still playing the
gather timer stays disarmed (it is armed on `playback_finished`),
otherwise it is armed now. -/
def gatherImpl (st : ChannelState) (attrib : ChanAttributes) : ChannelState :=
  { st with
    gatherInstance :=
      { digits := ""
        running := true
        numDigits := jsOr attrib.numDigits 1
        finishOnKey := attrib.finishOnKey
        action := attrib.action
        timeout := if st.isPlaying then false else true
        timeoutSeconds := jsOr attrib.timeout 5 } }

/-- `runAction`: pop and dispatch the head action; `play` continues
synchronously into the next action, `gather` blocks, `redirect` tail-calls
`setAction`, `hangup` hangs up and destroys.  Fuel bounds redirect
chains. -/
def runAction (env : ChanEnv) : Nat → ChannelState → ChannelState × List Effect
  | 0, st => (st, [])
  | Nat.succ fuel, st =>
    match st.remainingActions with
    | [] => (st, [])
    | action :: rest =>
      let st := { st with
        remainingActions := rest
        timeoutHandle := false
        currentTimeout := jsOr action.attributes.timeout 0 }
      if action.name = "play" then
        match action.data with
        | some d =>
          if d = "" then runAction env fuel st
          else
            let p := playImpl env st d
            let k := runAction env fuel p.1
            (k.1, p.2 ++ k.2)
        | none => runAction env fuel st
      else if action.name = "gather" then
        (gatherImpl st action.attributes, [])
      else if action.name = "redirect" then
        match action.data with
        | some d =>
          if d = "" then (st, [])
          else
            let st1 := { st with timeoutHandle := false }
            let g := getActionsImpl env st1 d (Params.attrs action.attributes)
            let k := runAction env fuel g.1
            (k.1, g.2 ++ k.2)
        | none => (st, [])
      else if action.name = "hangup" then
        let d := destroyImpl st
        (d.1, Effect.hangup st.id :: d.2)
      else
        runAction env fuel st

/-- `setAction` (external steering): cancel the post-playback timer, load
the new action script and run it. -/
def setActionImpl (env : ChanEnv) (fuel : Nat) (st : ChannelState) (url : String)
    (params : Params) : ChannelState × List Effect :=
  let st1 := { st with timeoutHandle := false }
  let g := getActionsImpl env st1 url params
  let k := runAction env fuel g.1
  (k.1, g.2 ++ k.2)

/-- `onDTMFReceived`: unconditional barge-in (stop a live playback, clear
the post-playback timer); then, when a gather is running, handle the
finish-on-key terminator or append the digit and complete on length;
otherwise the digit is dropped. -/
def onDTMFReceived (env : ChanEnv) (fuel : Nat) (st : ChannelState) (digit : String) :
    ChannelState × List Effect :=
  let barge :=
    if st.isPlaying && !(st.playbackId = "") then
      (({ st with isPlaying := false, playbackId := "" }), [Effect.stopPlayback st.playbackId])
    else (st, [])
  let st := { barge.1 with timeoutHandle := false }
  let e0 := barge.2
  if st.gatherInstance.running then
    let fokHit :=
      match st.gatherInstance.finishOnKey with
      | some k => !(k = "") && digit = k
      | none => false
    if fokHit then
      let st1 := { st with gatherInstance :=
        { st.gatherInstance with running := false, timeout := false } }
      if jsFalsyStr st1.gatherInstance.action then (st1, e0)
      else
        let g := getActionsImpl env st1 (st1.gatherInstance.action.getD "")
          (Params.digits st1.gatherInstance.digits)
        let k := runAction env fuel g.1
        (k.1, e0 ++ g.2 ++ k.2)
    else
      let newDigits := st.gatherInstance.digits ++ digit
      let st1 := { st with gatherInstance := { st.gatherInstance with digits := newDigits } }
      if jsFalsyStr st1.gatherInstance.finishOnKey
          && st1.gatherInstance.numDigits ≤ newDigits.length then
        let st2 := { st1 with gatherInstance :=
          { st1.gatherInstance with running := false, timeout := false } }
        if jsFalsyStr st2.gatherInstance.action then (st2, e0)
        else
          let g := getActionsImpl env st2 (st2.gatherInstance.action.getD "")
            (Params.digits newDigits)
          let k := runAction env fuel g.1
          (k.1, e0 ++ g.2 ++ k.2)
      else (st1, e0)
  else (st, e0)

/-- `onPlaybackFinished`: a non-empty event id that differs from a
non-empty current `playbackId` is a late event and is ignored; otherwise
clear playing and the post-playback timer, consume a pending action, or
arm the gather timer, or arm the end-of-actions timer, or continue with
the remaining actions. -/
def onPlaybackFinished (env : ChanEnv) (fuel : Nat) (st : ChannelState)
    (playbackId : Option String) : ChannelState × List Effect :=
  let lateGuard :=
    match playbackId with
    | some p => !(p = "") && !(st.playbackId = "") && !(p = st.playbackId)
    | none => false
  if lateGuard then (st, [])
  else
    let st := { st with isPlaying := false, timeoutHandle := false }
    match st.pendingAction with
    | some pending =>
      let st1 := { st with pendingAction := none }
      let g := getActionsImpl env st1 pending.1 pending.2
      let k := runAction env fuel g.1
      (k.1, g.2 ++ k.2)
    | none =>
      if st.gatherInstance.running then
        ({ st with gatherInstance := { st.gatherInstance with timeout := true } }, [])
      else if st.remainingActions.isEmpty then
        ({ st with timeoutHandle := true }, [])
      else
        runAction env fuel st

/-! ## Concrete fixtures

Closed states and environments used by the counterexamples and witnesses
below. -/

/-- An action-script server that always answers with a single zero-timeout
`<Play>` action, and a deterministic playback-id generator. -/
def chanEnvPlay : ChanEnv where
  fetchResult := fun _ _ => FetchOutcome.ok
    [{ name := "play", data := some "custom/camp/confirm",
       attributes := { timeout := some 0 } }]
  freshPlaybackId := fun n => "pb" ++ toString n

/-- An action-script server whose replies carry no `Response` element. -/
def chanEnvNull : ChanEnv where
  fetchResult := fun _ _ => FetchOutcome.noResponse
  freshPlaybackId := fun n => toString n

/-- A session waiting in a one-digit gather (as after `answer`'s prompt
finished and its gather timer was armed). -/
def gatherRunningState : ChannelState where
  id := "chan1"
  remainingActions := []
  gatherInstance :=
    { digits := ""
      running := true
      numDigits := 1
      finishOnKey := none
      action := some "http://localhost:3000/action/gather?uuid=chan1"
      timeout := true
      timeoutSeconds := 5 }
  playbackId := ""
  isPlaying := false
  currentTimeout := 0
  timeoutHandle := false
  pendingAction := none
  currentActionStatus := "answer"
  isDestroyed := false
  seq := 0

/-- `gatherRunningState` immediately after `destroy()` returned. -/
def destroyedGatherState : ChannelState := (destroyImpl gatherRunningState).1

/-- A session whose playback was barged into (playing and `playbackId`
cleared) while its gather is still collecting digits with its timer not
yet armed. -/
def stalePlaybackState : ChannelState where
  id := "chan2"
  remainingActions := []
  gatherInstance :=
    { digits := "12"
      running := true
      numDigits := 4
      finishOnKey := none
      action := some "http://localhost:3000/action/gather?uuid=chan2"
      timeout := false
      timeoutSeconds := 5 }
  playbackId := ""
  isPlaying := false
  currentTimeout := 0
  timeoutHandle := false
  pendingAction := none
  currentActionStatus := "gather"
  isDestroyed := false
  seq := 1

/-- A session in the middle of a playback with id `pb7`. -/
def activePlaybackState : ChannelState where
  id := "chan4"
  remainingActions := []
  gatherInstance :=
    { digits := ""
      running := true
      numDigits := 6
      finishOnKey := none
      action := some "http://localhost:3000/action/confirm?uuid=chan4"
      timeout := false
      timeoutSeconds := 5 }
  playbackId := "pb7"
  isPlaying := true
  currentTimeout := 0
  timeoutHandle := false
  pendingAction := none
  currentActionStatus := "gather"
  isDestroyed := false
  seq := 8

/-- A session with no gather running, no playback in progress, and the
post-playback timer armed (as after the `answer` prompt finished with no
gather pending). -/
def armedTimerState : ChannelState where
  id := "chan3"
  remainingActions := []
  gatherInstance :=
    { digits := ""
      running := false
      numDigits := 1
      finishOnKey := none
      action := none
      timeout := false
      timeoutSeconds := 5 }
  playbackId := ""
  isPlaying := false
  currentTimeout := 10
  timeoutHandle := true
  pendingAction := none
  currentActionStatus := "answer"
  isDestroyed := false
  seq := 1

/-- A one-campaign catalog with `options`, `option1` and `option2` steps
(a single-gather menu campaign). -/
def catalogVenmo : CatalogEnv where
  getActionData := fun c s =>
    if c = "venmo" ∧ (s = "options" ∨ s = "option1" ∨ s = "option2") then
      some { audio := "a", next := some "confirm", dgts := some 6,
             finishOnKey := none, timeout := 5 }
    else none

/-- A call store holding one call on the `venmo` campaign. -/
def callStoreOptions : CallStoreState := fun k =>
  if k = "call1" then
    some { uuid := "call1", state := "options", campaign := "venmo",
           selectedOption := none, gatherStage := none }
  else none

/-! ## Helper lemmas -/

/-- A trunk fails the availability test exactly when it has a finite cap
that its usage has reached. -/
theorem trunkAvailable_eq_false_iff (usage : String → Nat) (t : Trunk) :
    trunkAvailable usage t = false ↔
      ∃ m, getMaxUsageForTrunk t = some m ∧ m ≤ usage t.trunk_id := by
  unfold trunkAvailable
  cases h : getMaxUsageForTrunk t with
  | none => simp
  | some m => simp [Nat.not_lt]

/-- A trunk passes the availability test exactly when it is uncapped or
strictly below its cap. -/
theorem trunkAvailable_eq_true_iff (usage : String → Nat) (t : Trunk) :
    trunkAvailable usage t = true ↔
      getMaxUsageForTrunk t = none ∨
        ∃ m, getMaxUsageForTrunk t = some m ∧ usage t.trunk_id < m := by
  unfold trunkAvailable
  cases h : getMaxUsageForTrunk t with
  | none => simp
  | some m => simp

/-- A successful `find?` splits its list at the first hit. -/
theorem find?_eq_some_split {α : Type} (p : α → Bool) (l : List α) (x : α)
    (h : l.find? p = some x) :
    ∃ pre post, l = pre ++ x :: post ∧ (∀ y ∈ pre, p y = false) ∧ p x = true := by
  induction l with
  | nil => simp [List.find?] at h
  | cons a l ih =>
    rw [List.find?] at h
    cases hpa : p a with
    | true =>
      rw [hpa] at h
      obtain rfl : a = x := by simpa using h
      exact ⟨[], l, rfl, by simp, hpa⟩
    | false =>
      rw [hpa] at h
      obtain ⟨pre, post, rfl, hpre, hx⟩ := ih h
      refine ⟨a :: pre, post, rfl, ?_, hx⟩
      intro y hy
      rcases List.mem_cons.mp hy with rfl | hy
      · exact hpa
      · exact hpre y hy

/-- The first job of a drain run starts no earlier than
`PROCESS_DELAY` after the recorded last-call time. -/
theorem drainStart_ge (last : Nat) (s : DrainStep) :
    last + PROCESS_DELAY ≤ drainStart last s := by
  unfold drainStart
  simp only
  split <;> omega

/-- Head-start bound of a drain schedule. -/
theorem drainSchedule_head_start (last : Nat) (steps : List DrainStep) :
    ∀ p ∈ (drainSchedule last steps).head?, last + PROCESS_DELAY ≤ p.1 := by
  cases steps with
  | nil => simp [drainSchedule]
  | cons s rest =>
    intro p hp
    simp only [drainSchedule, List.head?_cons, Option.mem_def, Option.some.injEq] at hp
    rw [← hp]
    exact drainStart_ge last s

/-- Every job of a drain run starts no earlier than `PROCESS_DELAY` after
the recorded last-call time. -/
theorem drainSchedule_all_start_ge (last : Nat) (steps : List DrainStep) :
    ∀ p ∈ drainSchedule last steps, last + PROCESS_DELAY ≤ p.1 := by
  induction steps generalizing last with
  | nil => simp [drainSchedule]
  | cons s rest ih =>
    intro p hp
    rw [drainSchedule, List.mem_cons] at hp
    rcases hp with rfl | hp
    · exact drainStart_ge last s
    · have h2 := ih (drainStart last s + s.dur) p hp
      have h3 := drainStart_ge last s
      omega

/-! ## Claims -/

/-- C2.  Per-trunk origination spacing: in every drain trace of
`processQueue`, at least `PROCESS_DELAY = 1100` ms of wall-clock time
separates the completion-or-failure of one job from the start of the next
job on the same trunk, hence any two starts on the same trunk are also at
least 1100 ms apart; a failed job's completion time is recorded exactly
like a successful one's. -/
theorem processQueue_spacing (last : Nat) (steps : List DrainStep) :
    List.Chain' (fun a b : Nat × Nat => a.2 + PROCESS_DELAY ≤ b.1) (drainSchedule last steps)
    ∧ List.Pairwise (fun a b : Nat × Nat => a.1 + PROCESS_DELAY ≤ b.1) (drainSchedule last steps)
    ∧ ∀ p ∈ drainSchedule last steps, p.1 ≤ p.2 := by
  induction steps generalizing last with
  | nil => simp [drainSchedule]
  | cons s rest ih =>
    obtain ⟨ih1, ih2, ih3⟩ := ih (drainStart last s + s.dur)
    refine ⟨?_, ?_, ?_⟩
    · rw [drainSchedule, List.chain'_cons']
      exact ⟨fun y hy => drainSchedule_head_start _ _ y hy, ih1⟩
    · rw [drainSchedule, List.pairwise_cons]
      refine ⟨fun y hy => ?_, ih2⟩
      have := drainSchedule_all_start_ge (drainStart last s + s.dur) rest y hy
      omega
    · intro p hp
      rw [drainSchedule, List.mem_cons] at hp
      rcases hp with rfl | hp
      · omega
      · exact ih3 p hp

/-- C5.  Queue admission: `enqueue` fails with the queue-full error as
soon as the trunk's queue holds `QUEUE_LIMIT = 50` pending jobs, before
adding anything; below the limit it appends the job to that trunk's queue
and touches nothing else. -/
theorem enqueue_queue_full_admission {α : Type} (st : QueueManagerState α)
    (trunkId : String) (job : α) :
    (QUEUE_LIMIT ≤ ((st.queues trunkId).getD []).length →
      enqueue st trunkId job =
        Except.error ("Cola llena para el trunk " ++ trunkId ++ " (máximo 50)"))
    ∧ (((st.queues trunkId).getD []).length < QUEUE_LIMIT →
      ∃ st1, enqueue st trunkId job = Except.ok st1
        ∧ st1.queues trunkId = some (((st.queues trunkId).getD []) ++ [job])
        ∧ (∀ k, ¬k = trunkId → st1.queues k = st.queues k)
        ∧ st1.processing = st.processing
        ∧ st1.lastCallTime = st.lastCallTime) := by
  constructor
  · intro h
    unfold enqueue
    cases hq : st.queues trunkId with
    | none => rw [hq] at h; simp [QUEUE_LIMIT] at h
    | some q =>
      rw [hq, Option.getD_some] at h
      simp only [Option.isSome_some, if_true]
      rw [hq, Option.getD_some, if_pos h]
  · intro h
    unfold enqueue
    cases hq : st.queues trunkId with
    | none =>
      simp only [Option.isSome_none, Bool.false_eq_true, if_false, if_pos rfl,
        Option.getD_some, Option.getD_none, List.length_nil]
      rw [if_neg (by simp [QUEUE_LIMIT])]
      refine ⟨_, rfl, by simp, fun k hk => ?_, rfl, rfl⟩
      simp [hk]
    | some q =>
      rw [hq, Option.getD_some] at h
      simp only [Option.isSome_some, if_true]
      rw [hq]
      simp only [Option.getD_some]
      rw [if_neg (by omega)]
      refine ⟨_, rfl, by simp, fun k hk => ?_, rfl, rfl⟩
      simp [hk]

/-- C10.  `sendToCallId` with an open socket never buffers: a throwing
send returns `false` with the service state unchanged and nothing on the
wire, a clean send returns `true`; only when no open socket exists is the
payload stored in `pendingMessages` (overwriting any pending one) with
`false` returned. -/
theorem sendToCallId_error_discards_payload {μ : Type} (st : WebSocketState μ)
    (callId : String) (m : μ) :
    (∀ ws, st.connections callId = some ws → ws.isOpen = true → ws.sendFails = true →
      sendToCallId st callId m = (false, st, []))
    ∧ (∀ ws, st.connections callId = some ws → ws.isOpen = true → ws.sendFails = false →
      sendToCallId st callId m = (true, st, [m]))
    ∧ (openSocketExists st callId = false →
      (sendToCallId st callId m).1 = false
      ∧ (sendToCallId st callId m).2.1.pendingMessages callId = some m
      ∧ (∀ k, ¬k = callId →
          (sendToCallId st callId m).2.1.pendingMessages k = st.pendingMessages k)
      ∧ (sendToCallId st callId m).2.1.connections = st.connections
      ∧ (sendToCallId st callId m).2.2 = [])
    ∧ (openSocketExists st callId = true → (sendToCallId st callId m).2.1 = st) := by
  refine ⟨?_, ?_, ?_, ?_⟩
  · intro ws hws ho hf
    unfold sendToCallId
    rw [hws]
    simp [ho, hf]
  · intro ws hws ho hf
    unfold sendToCallId
    rw [hws]
    simp [ho, hf]
  · intro h
    unfold openSocketExists at h
    unfold sendToCallId
    cases hws : st.connections callId with
    | none =>
      exact ⟨rfl, by simp, fun k hk => by simp [hk], rfl, rfl⟩
    | some ws =>
      rw [hws] at h
      simp at h
      exact ⟨by simp [h], by simp [h], fun k hk => by simp [h, hk], by simp [h], by simp [h]⟩
  · intro h
    unfold openSocketExists at h
    unfold sendToCallId
    cases hws : st.connections callId with
    | none => rw [hws] at h; simp at h
    | some ws =>
      rw [hws] at h
      simp at h
      simp only [h, if_true]
      by_cases hf : ws.sendFails = true
      · simp [hf]
      · simp [hf]

/-- C1.  Trunk usage caps: `getMaxUsageForTrunk` gives no cap to trunks
without the `telnyx_`/`custom_` prefix, 9 to verified custom/telnyx
trunks and 4 to the rest; `assignTrunk` returns the first trunk of the
user whose usage is below its cap, its new usage stays within the cap,
and when every trunk of the user is at its cap it returns a failure
result without touching the store. -/
theorem assignTrunk_first_available_and_caps (st : TrunkStoreState) (u freshId : String) :
    (∀ t : Trunk, isCustomOrTelnyxTrunk t = false → getMaxUsageForTrunk t = none)
    ∧ (∀ t : Trunk, isCustomOrTelnyxTrunk t = true → t.is_verified = some true →
        getMaxUsageForTrunk t = some 9)
    ∧ (∀ t : Trunk, isCustomOrTelnyxTrunk t = true → ¬t.is_verified = some true →
        getMaxUsageForTrunk t = some 4)
    ∧ (∀ t, findAvailableTrunk st u = some t →
        ∃ pre post, getTrunksForUser st u = pre ++ t :: post
          ∧ (∀ x ∈ pre, ∃ m, getMaxUsageForTrunk x = some m ∧ m ≤ st.trunkUsageCount x.trunk_id)
          ∧ (getMaxUsageForTrunk t = none ∨
              ∃ m, getMaxUsageForTrunk t = some m ∧ st.trunkUsageCount t.trunk_id < m)
          ∧ (assignTrunk st u freshId).1.success = true
          ∧ (assignTrunk st u freshId).1.trunk = some t
          ∧ (assignTrunk st u freshId).2.trunkUsageCount t.trunk_id
              = st.trunkUsageCount t.trunk_id + 1
          ∧ (∀ m, getMaxUsageForTrunk t = some m →
              (assignTrunk st u freshId).2.trunkUsageCount t.trunk_id ≤ m))
    ∧ (findAvailableTrunk st u = none →
        (assignTrunk st u freshId).1.success = false
        ∧ (assignTrunk st u freshId).2 = st
        ∧ ∀ x ∈ getTrunksForUser st u,
            ∃ m, getMaxUsageForTrunk x = some m ∧ m ≤ st.trunkUsageCount x.trunk_id) := by
  refine ⟨?_, ?_, ?_, ?_, ?_⟩
  · intro t ht
    unfold getMaxUsageForTrunk
    rw [ht]
    simp
  · intro t ht hv
    unfold getMaxUsageForTrunk
    rw [ht, hv]
    simp
  · intro t ht hv
    unfold getMaxUsageForTrunk
    rw [ht]
    simp [hv, MAX_TRUNK_USAGE]
  · intro t hfind
    have hfind2 : (getTrunksForUser st u).find? (trunkAvailable st.trunkUsageCount) = some t := by
      rw [← hfind]; rfl
    obtain ⟨pre, post, hsplit, hpre, hx⟩ := find?_eq_some_split _ _ _ hfind2
    refine ⟨pre, post, hsplit, ?_, ?_, ?_, ?_, ?_, ?_⟩
    · intro y hy
      exact (trunkAvailable_eq_false_iff _ _).mp (hpre y hy)
    · exact (trunkAvailable_eq_true_iff _ _).mp hx
    · unfold assignTrunk
      rw [hfind]
    · unfold assignTrunk
      rw [hfind]
    · unfold assignTrunk
      rw [hfind]
      simp
    · intro m hm
      have hlt : st.trunkUsageCount t.trunk_id < m := by
        rcases (trunkAvailable_eq_true_iff _ _).mp hx with hnone | ⟨m2, hm2, hlt2⟩
        · rw [hnone] at hm; cases hm
        · rw [hm2] at hm; injection hm with hmm; omega
      unfold assignTrunk
      rw [hfind]
      simp
      omega
  · intro hnone
    have hall : ∀ x ∈ getTrunksForUser st u, trunkAvailable st.trunkUsageCount x = false := by
      intro x hxmem
      have hn2 : (getTrunksForUser st u).find? (trunkAvailable st.trunkUsageCount) = none := by
        rw [← hnone]; rfl
      have := List.find?_eq_none.mp hn2 x hxmem
      simpa using this
    refine ⟨?_, ?_, ?_⟩
    · unfold assignTrunk
      rw [hnone]
    · unfold assignTrunk
      rw [hnone]
    · intro x hxmem
      exact (trunkAvailable_eq_false_iff _ _).mp (hall x hxmem)

/-- Releasing an unknown assignment id is the not-found no-op. -/
theorem releaseAssignment_of_none (st : TrunkStoreState) (id : String)
    (h : st.assignments id = none) :
    releaseAssignment st id =
      ({ success := false, message := "Asignación no encontrada" }, st) := by
  unfold releaseAssignment
  rw [h]

/-- C4.  Release semantics: releasing an unknown assignment id (including
an id already released by request or by TTL expiry) returns the not-found
result and leaves the store unchanged; releasing a known id cancels its
TTL timer, decrements its trunk's usage counter by one (clamped at zero),
removes the assignment and touches nothing else, so a second release of
the same id returns the not-found result; the TTL auto-release
`releaseAssignmentById` has exactly the same effect. -/
theorem releaseAssignment_semantics (st : TrunkStoreState) (id : String) :
    (st.assignments id = none →
      releaseAssignment st id =
        ({ success := false, message := "Asignación no encontrada" }, st))
    ∧ (∀ a, st.assignments id = some a →
        (releaseAssignment st id).1.success = true
        ∧ (releaseAssignment st id).2.assignments id = none
        ∧ (releaseAssignment st id).2.armedTimers id = false
        ∧ (releaseAssignment st id).2.trunkUsageCount a.trunk_id
            = st.trunkUsageCount a.trunk_id - 1
        ∧ (∀ k, ¬k = a.trunk_id →
            (releaseAssignment st id).2.trunkUsageCount k = st.trunkUsageCount k)
        ∧ (∀ j, ¬j = id →
            (releaseAssignment st id).2.assignments j = st.assignments j)
        ∧ releaseAssignment (releaseAssignment st id).2 id =
            ({ success := false, message := "Asignación no encontrada" },
             (releaseAssignment st id).2))
    ∧ releaseAssignmentById st id = releaseAssignment st id := by
  refine ⟨?_, ?_, ?_⟩
  · intro h
    exact releaseAssignment_of_none st id h
  · intro a ha
    have h2none : (releaseAssignment st id).2.assignments id = none := by
      unfold releaseAssignment
      rw [ha]
      simp
    refine ⟨?_, h2none, ?_, ?_, ?_, ?_, ?_⟩
    · unfold releaseAssignment
      rw [ha]
    · unfold releaseAssignment
      rw [ha]
      simp
    · unfold releaseAssignment
      rw [ha]
      by_cases hc : 0 < st.trunkUsageCount a.trunk_id
      · simp [hc]
      · simp [hc]
        omega
    · intro k hk
      unfold releaseAssignment
      rw [ha]
      by_cases hc : 0 < st.trunkUsageCount a.trunk_id
      · simp [hc, hk]
      · simp [hc]
    · intro j hj
      unfold releaseAssignment
      rw [ha]
      simp [hj]
    · exact releaseAssignment_of_none _ _ h2none
  · unfold releaseAssignment releaseAssignmentById
    rfl

/-- The timeouts carried by the `Gather` elements of a generated XML
response. -/
def gatherTimeouts (resp : List XmlNode) : List Nat :=
  resp.filterMap fun n =>
    match n with
    | XmlNode.gather _ t _ _ => some t
    | _ => none

/-- C9.  Answer-only timeout jitter: for `answer` the Gather timeout is
`10 + r` with the random draw `r < 6` — every value of `[10, 15]` is
attainable and no other — while every other status keeps the catalog
entry's original timeout; `confirm` keeps its original timeout on its
`Play` element and has no `Gather` at all. -/
theorem answer_timeout_jitter (baseUrl : String) (d : ActionData)
    (uuid campaign status : String) (r : Fin 6) :
    (getRandomizedTimeout "answer" d.timeout r = 10 + r.val
      ∧ 10 ≤ getRandomizedTimeout "answer" d.timeout r
      ∧ getRandomizedTimeout "answer" d.timeout r ≤ 15)
    ∧ (∀ t, 10 ≤ t → t ≤ 15 → ∃ q : Fin 6,
        gatherTimeouts (generateXMLResponse baseUrl "answer" d uuid campaign q) = [t])
    ∧ (¬status = "answer" →
        ∀ t ∈ gatherTimeouts (generateXMLResponse baseUrl status d uuid campaign r),
          t = d.timeout)
    ∧ gatherTimeouts (generateXMLResponse baseUrl "answer" d uuid campaign r) = [10 + r.val]
    ∧ generateXMLResponse baseUrl "confirm" d uuid campaign r
        = [XmlNode.playT d.timeout (buildAudioPath campaign "confirm")] := by
  have hr := r.isLt
  refine ⟨⟨?_, ?_, ?_⟩, ?_, ?_, ?_, ?_⟩
  · unfold getRandomizedTimeout
    simp
  · unfold getRandomizedTimeout
    simp
  · unfold getRandomizedTimeout
    simp
    omega
  · intro t h1 h2
    refine ⟨⟨t - 10, by omega⟩, ?_⟩
    simp [generateXMLResponse, gatherTimeouts, getRandomizedTimeout]
    omega
  · intro hs t ht
    unfold generateXMLResponse at ht
    by_cases h1 : status = "confirm"
    · simp [h1, gatherTimeouts] at ht
    · rw [if_neg h1] at ht
      by_cases h2 : status = "completed" ∨ status = "completed_option1"
          ∨ status = "completed_option2"
      · rw [if_pos h2] at ht
        simp [gatherTimeouts] at ht
      · rw [if_neg h2] at ht
        simp [gatherTimeouts] at ht
        rw [ht]
        unfold getRandomizedTimeout
        rw [if_neg hs]
  · simp [generateXMLResponse, gatherTimeouts, getRandomizedTimeout]
  · simp [generateXMLResponse]

/-- C8.  Menu hoisting: an `/action/options` request with a non-empty
`Digits` and a known call stores `selected_option = "1"` when the digits
are exactly `"1"` and `"2"` otherwise, and the status used for the rest
of the request (catalog lookup, side effects, XML generation) is
overridden to `option1` respectively `option2`. -/
theorem options_digits_hoisting (env : CatalogEnv) (baseUrl : String) (r : Fin 6)
    (cs : CallStoreState) (uuid d : String) (c : CallData)
    (hu : ¬uuid = "") (hc : cs uuid = some c) (hd : ¬d = "") :
    (handleAction env baseUrl r cs "options" (some uuid) (some d)).statusUsed
        = (if d = "1" then "option1" else "option2")
    ∧ (∃ c1, (handleAction env baseUrl r cs "options" (some uuid) (some d)).store uuid
          = some c1
        ∧ c1.selectedOption = some (if d = "1" then "1" else "2"))
    ∧ (∀ ad, env.getActionData c.campaign (if d = "1" then "option1" else "option2")
          = some ad →
        (handleAction env baseUrl r cs "options" (some uuid) (some d)).xml
          = XmlOut.response (generateXMLResponse baseUrl
              (if d = "1" then "option1" else "option2") ad uuid c.campaign r))
    ∧ (env.getActionData c.campaign (if d = "1" then "option1" else "option2") = none →
        (handleAction env baseUrl r cs "options" (some uuid) (some d)).xml
          = XmlOut.errorPlay) := by
  have hjsu : jsFalsyStr (some uuid) = false := by simp [jsFalsyStr, hu]
  have hjsd : jsFalsyStr (some d) = false := by simp [jsFalsyStr, hd]
  have hcond : ("options" = "options" ∧ ¬jsFalsyStr (some d) = true) :=
    ⟨rfl, by simp [hjsd]⟩
  unfold handleAction
  rw [hjsu]
  simp only [Bool.false_eq_true, if_false, Option.getD_some]
  rw [hc]
  simp only [if_pos hcond, Option.getD_some]
  by_cases hd1 : d = "1"
  · subst hd1
    simp only [jsFalsyStr] at hjsd ⊢
    simp
    cases hcat : env.getActionData c.campaign "option1" with
    | none => simp [hcat, updateCall, hc]
    | some ad => simp [hcat, processActionLogic, jsFalsyStr, updateCall, hc]
  · simp only [if_neg hd1]
    cases hcat : env.getActionData c.campaign "option2" with
    | none => simp [hd1, hjsd, hcat, updateCall, hc]
    | some ad => simp [hd1, hjsd, hcat, processActionLogic, hd, updateCall, hc]

/-- Witness for C8: pressing `1` at `/action/options` for a known call on
the `venmo` campaign hoists the status to `option1`. -/
theorem options_digits_hoisting_witness :
    (handleAction catalogVenmo "http://localhost:3000" 0 callStoreOptions "options"
        (some "call1") (some "1")).statusUsed = "option1"
    ∧ ∃ c1, (handleAction catalogVenmo "http://localhost:3000" 0 callStoreOptions "options"
        (some "call1") (some "1")).store "call1" = some c1
        ∧ c1.selectedOption = some "1" := by
  have h := options_digits_hoisting catalogVenmo "http://localhost:3000" 0 callStoreOptions
    "call1" "1"
    { uuid := "call1", state := "options", campaign := "venmo",
      selectedOption := none, gatherStage := none }
    (by decide) rfl (by decide)
  refine ⟨by simpa using h.1, ?_⟩
  obtain ⟨c1, hst, hsel⟩ := h.2.1
  exact ⟨c1, hst, by simpa using hsel⟩

/-- C3 (amended).  Destroy is latched: the first `destroy()` disarms both
session timers (so no timer armed at that moment can fire any more),
clears the playing state and issues one best-effort PBX hangup, and any
further `destroy()` is a no-op with no state change and no PBX call.
The original claim's stronger guarantee — that no subsequently delivered
event issues an outbound call — does not hold, see the counterexample. -/
theorem destroy_latched_and_timers_cleared (st : ChannelState)
    (h : st.isDestroyed = false) :
    (destroyImpl st).1.isDestroyed = true
    ∧ (destroyImpl st).1.timeoutHandle = false
    ∧ (destroyImpl st).1.gatherInstance.timeout = false
    ∧ (destroyImpl st).1.isPlaying = false
    ∧ (destroyImpl st).1.playbackId = ""
    ∧ (destroyImpl st).2 = [Effect.hangup st.id]
    ∧ destroyImpl (destroyImpl st).1 = ((destroyImpl st).1, []) := by
  simp [destroyImpl, h]

/-- Witness for C3: destroying a session waiting in a gather disarms both
timers and makes a second destroy a no-op. -/
theorem destroy_latched_and_timers_cleared_witness :
    (destroyImpl gatherRunningState).1.timeoutHandle = false
    ∧ (destroyImpl gatherRunningState).1.gatherInstance.timeout = false
    ∧ destroyImpl (destroyImpl gatherRunningState).1
        = ((destroyImpl gatherRunningState).1, []) := by
  have h := destroy_latched_and_timers_cleared gatherRunningState rfl
  exact ⟨h.2.1, h.2.2.1, h.2.2.2.2.2.2⟩

/-- Counterexample to C3 as stated: `destroy` leaves
`gatherInstance.running` set and the DTMF handler never checks
`isDestroyed`, so a digit delivered to the already-destroyed session
completes the gather, fetches the action script and issues an outbound
PBX `play` — an outbound call after `destroy()` returned. -/
theorem destroyed_session_dtmf_issues_call :
    destroyedGatherState = (destroyImpl gatherRunningState).1
    ∧ destroyedGatherState.isDestroyed = true
    ∧ destroyedGatherState.timeoutHandle = false
    ∧ destroyedGatherState.gatherInstance.timeout = false
    ∧ (onDTMFReceived chanEnvPlay 10 destroyedGatherState "1").2
        = [Effect.fetch "http://localhost:3000/action/gather?uuid=chan1" (Params.digits "1"),
           Effect.play "chan1" "custom/camp/confirm" "pb0"] := by
  refine ⟨rfl, rfl, rfl, rfl, ?_⟩
  rfl

/-- C6 (amended).  Late-playback guard: a `playback_finished` event whose
id is non-empty and differs from the session's current `playbackId` is
ignored — no state change, no effect — provided the current `playbackId`
is itself non-empty.  (When the session's `playbackId` is empty the
source's guard does not fire; see the counterexample.) -/
theorem late_playback_ignored_when_current_nonempty (env : ChanEnv) (fuel : Nat)
    (st : ChannelState) (p : String)
    (h1 : ¬p = "") (h2 : ¬st.playbackId = "") (h3 : ¬p = st.playbackId) :
    onPlaybackFinished env fuel st (some p) = (st, []) := by
  unfold onPlaybackFinished
  simp [h1, h2, h3]

/-- Witness for C6: a mismatched playback id delivered during an active
playback changes nothing. -/
theorem late_playback_ignored_witness :
    onPlaybackFinished chanEnvNull 10 activePlaybackState (some "otherpb")
      = (activePlaybackState, []) :=
  late_playback_ignored_when_current_nonempty chanEnvNull 10 activePlaybackState "otherpb"
    (by decide) (by decide) (by decide)

/-- Counterexample to C6 as stated: after barge-in the session's
`playbackId` is `""`; a stale `playback_finished` with a non-empty id
differs from it, yet the event is processed — here it arms the gather
timer, changing the session state. -/
theorem late_playback_not_ignored_when_current_empty :
    ¬"late_pb" = ""
    ∧ ¬"late_pb" = stalePlaybackState.playbackId
    ∧ stalePlaybackState.gatherInstance.timeout = false
    ∧ (onPlaybackFinished chanEnvNull 10 stalePlaybackState
        (some "late_pb")).1.gatherInstance.timeout = true
    ∧ ¬(onPlaybackFinished chanEnvNull 10 stalePlaybackState (some "late_pb")).1
        = stalePlaybackState := by
  refine ⟨by decide, by decide, rfl, rfl, by decide⟩

/-- C7 (amended).  A DTMF digit delivered while no gather is running and
no playback is in progress is dropped with no outbound call and no state
change — except that the post-playback timer, if armed, is cleared (the
source clears `timeoutHandle` unconditionally, before the
`gather_state.running` check). -/
theorem dropped_digit_clears_post_playback_timer (env : ChanEnv) (fuel : Nat)
    (st : ChannelState) (digit : String)
    (h1 : st.gatherInstance.running = false) (h2 : st.isPlaying = false) :
    onDTMFReceived env fuel st digit = ({ st with timeoutHandle := false }, []) := by
  unfold onDTMFReceived
  simp [h1, h2]

/-- Witness for C7: a digit dropped outside any gather only clears the
armed post-playback timer. -/
theorem dropped_digit_clears_post_playback_timer_witness :
    onDTMFReceived chanEnvNull 10 armedTimerState "5"
      = ({ armedTimerState with timeoutHandle := false }, []) :=
  dropped_digit_clears_post_playback_timer chanEnvNull 10 armedTimerState "5" rfl rfl

/-- Counterexample to C7 as stated: with the post-playback timer armed, a
dropped digit does change the session — the timer is disarmed. -/
theorem dropped_digit_disarms_timer_cex :
    armedTimerState.gatherInstance.running = false
    ∧ armedTimerState.isPlaying = false
    ∧ armedTimerState.timeoutHandle = true
    ∧ (onDTMFReceived chanEnvNull 10 armedTimerState "5").1.timeoutHandle = false
    ∧ ¬(onDTMFReceived chanEnvNull 10 armedTimerState "5").1 = armedTimerState := by
  refine ⟨rfl, rfl, rfl, rfl, by decide⟩

end Asterik
